import Mathlib

/-!
Verification of the FAQ retrieval-augmented answer pipeline
(`Cindys_code/agent.py`): the resource registry `_setup_rag_system`,
the retrieval tool `FAQTool._run`, and the orchestrator `run_faq_agent`.

The Python code is shallowly embedded: each fallible external call
(embedding-model constructor, vector-index open, LLM construction, query
encoding, index query, agent-workflow invocation) is a field of an
environment record returning `Except`; the module-level globals become an
explicit `RagState`; constructor invocations are counted in `CallCounts`;
a Python exception escaping a function is an `Except.error PyExn` result.
-/

/-- A Python exception kind that can escape the formatting loop of
`FAQTool._run` (subscripting a missing/`None` `metadatas` entry raises
`KeyError`/`TypeError`; indexing a too-short list raises `IndexError`). -/
inductive PyExn where
  | typeError
  | indexError
  deriving DecidableEq, Repr

/-- A Chroma metadata dict, restricted to string values: `metadata.get(k, d)`
is association-list lookup with default `d`. -/
abbrev Metadata := List (String × String)

/-- Python `metadata.get(key, default)`. -/
def metaGet (m : Metadata) (key dflt : String) : String :=
  (m.lookup key).getD dflt

/-- The shape of `chroma_collection.query(...)`'s return value used by
`FAQTool._run`: `documents` and `metadatas` are lists of per-query lists;
either key may be absent or `None` (modelled as `none`). -/
structure QueryResult where
  documents : Option (List (List String))
  metadatas : Option (List (List Metadata))
  deriving DecidableEq, Repr

/-- One formatted block of `FAQTool._run`'s loop body (agent.py lines
181-183): `question = metadata.get('question', 'N/A')`,
`answer = metadata.get('answer', doc_content)`,
`f"Question: {question}\nAnswer: {answer}"`. -/
def formatBlock (doc_content : String) (metadata : Metadata) : String :=
  "Question: " ++ metaGet metadata "question" "N/A"
    ++ "\nAnswer: " ++ metaGet metadata "answer" doc_content

/-- `results['metadatas'][0][i]` (agent.py line 180): raises if `metadatas`
is absent/`None`, if its outer list is empty, or if its first entry is
shorter than `i+1`. -/
def getMeta (metadatas : Option (List (List Metadata))) (i : Nat) :
    Except PyExn Metadata :=
  match metadatas with
  | none => .error .typeError
  | some [] => .error .indexError
  | some (m0 :: _) =>
    match m0[i]? with
    | none => .error .indexError
    | some m => .ok m

/-- The body of the `for i in range(len(results['documents'][0]))` loop of
`FAQTool._run` (agent.py lines 178-183) from iteration `i` on, building
`retrieved_contexts`; any raise from `results['metadatas'][0][i]` escapes. -/
def formatGo (metadatas : Option (List (List Metadata))) :
    List String → Nat → Except PyExn (List String)
  | [], _ => .ok []
  | doc_content :: rest, i =>
    match getMeta metadatas i with
    | .error e => .error e
    | .ok metadata =>
      match formatGo metadatas rest (i + 1) with
      | .error e => .error e
      | .ok blocks => .ok (formatBlock doc_content metadata :: blocks)

/-- The whole formatting loop: all iterations, starting at index 0. -/
def formatAll (docs0 : List String)
    (metadatas : Option (List (List Metadata))) : Except PyExn (List String) :=
  formatGo metadatas docs0 0

/-- Steps 3-5 of `FAQTool._run` (agent.py lines 174-191): the Python
truthiness test `results and results.get('documents') and
results['documents'][0]`, the formatting loop, the empty-result sentinel,
and the `"\n\n"` join. -/
def processResults (results : Option QueryResult) : Except PyExn String :=
  let contexts : Except PyExn (List String) :=
    match results with
    | none => .ok []
    | some r =>
      match r.documents with
      | none => .ok []
      | some [] => .ok []
      | some (docs0 :: _) =>
        if docs0.isEmpty then .ok []
        else formatAll docs0 r.metadatas
  match contexts with
  | .error e => .error e
  | .ok [] => .ok "No relevant information found in the FAQs."
  | .ok retrieved_contexts => .ok (String.intercalate "\n\n" retrieved_contexts)

/-- The external calls made by `FAQTool._run`: `encode` is
`self.embedding_model.encode(query).tolist()` (an opaque embedding,
modelled as `Nat`), `query` is `self.chroma_collection.query(...)` taking
the embedding and `n_results`; an `.error` models a raised exception whose
message is the string. -/
structure ToolEnv where
  encode : String → Except String Nat
  query : Nat → Nat → Except String (Option QueryResult)

namespace FAQTool

/-- `FAQTool._run` (agent.py lines 143-191): encoding and index-query
failures are caught and returned as diagnostic strings; the formatting
loop is outside any handler, so its exceptions escape (`.error`). -/
def run (env : ToolEnv) (query : String) : Except PyExn String :=
  match env.encode query with
  | .error e => .ok ("Error processing query for FAQ lookup: " ++ e)
  | .ok query_embedding =>
    match env.query query_embedding 3 with
    | .error e => .ok ("Error retrieving information from FAQs: " ++ e)
    | .ok results => processResults results

end FAQTool

/-- The module-level globals of agent.py (lines 29-33): `None` before
initialization, a handle afterwards. The handles themselves are opaque
(`Nat`); the tool instance records the model and collection it was built
from (agent.py line 80), the workflow is a unit handle. -/
structure RagState where
  embedding_model : Option Nat
  chroma_collection : Option Nat
  llm : Option Nat
  faq_tool_instance : Option (Nat × Nat)
  agent_workflow : Option Unit
  deriving DecidableEq, Repr

/-- The guard of agent.py line 48: all five globals are truthy (the stored
objects, when present, are always truthy in Python). -/
def RagState.isReady (st : RagState) : Bool :=
  st.embedding_model.isSome && st.chroma_collection.isSome && st.llm.isSome
    && st.faq_tool_instance.isSome && st.agent_workflow.isSome

/-- The initial state: every global is `None`. -/
def RagState.initial : RagState :=
  ⟨none, none, none, none, none⟩

/-- Number of invocations of each external constructor, for the
call-count instrumentation the spec asks for. -/
structure CallCounts where
  model : Nat
  chroma : Nat
  llm : Nat
  deriving DecidableEq, Repr

def CallCounts.zero : CallCounts := ⟨0, 0, 0⟩

/-- The fallible constructors invoked by `_setup_rag_system`:
`SentenceTransformer(EMBEDDING_MODEL_NAME)`,
`chromadb.PersistentClient(...).get_or_create_collection(...)`, and
`ChatModel.from_name(...)`; an `.error` models the constructor raising. -/
structure SetupEnv where
  loadModel : Except String Nat
  openChroma : Except String Nat
  initLlm : Except String Nat

/-- `_setup_rag_system` (agent.py lines 35-98): returns `true` at once if
all five globals are set; otherwise runs steps 1-3 under handlers that
return `false` on a raise (the assignment does not happen, so a global
keeps its previous value), then unconditionally builds the tool and the
workflow and returns `true`. Each constructor invocation bumps its count. -/
def setupRagSystem (env : SetupEnv) (st : RagState) (c : CallCounts) :
    Bool × RagState × CallCounts :=
  if st.isReady then
    (true, st, c)
  else
    let c := { c with model := c.model + 1 }
    match env.loadModel with
    | .error _ => (false, st, c)
    | .ok m =>
      let st := { st with embedding_model := some m }
      let c := { c with chroma := c.chroma + 1 }
      match env.openChroma with
      | .error _ => (false, st, c)
      | .ok coll =>
        let st := { st with chroma_collection := some coll }
        let c := { c with llm := c.llm + 1 }
        match env.initLlm with
        | .error _ => (false, st, c)
        | .ok l =>
          let st := { st with llm := some l }
          let st := { st with faq_tool_instance := some (m, coll) }
          let st := { st with agent_workflow := some () }
          (true, st, c)

/-- `n` successive calls to `_setup_rag_system` under a fixed environment,
threading the globals and the call counts. -/
def setupIter (env : SetupEnv) : Nat → RagState × CallCounts → RagState × CallCounts
  | 0, sc => sc
  | n + 1, sc =>
    let r := setupRagSystem env sc.1 sc.2
    setupIter env n (r.2.1, r.2.2)

/-- The full environment of `run_faq_agent`: the registry constructors,
the tool's external calls, and `_agent_workflow.run` followed by
`response.result.final_answer`, modelled as a function from the prompt to
either the final answer or a raised exception's message. -/
structure AgentEnv where
  setup : SetupEnv
  tool : ToolEnv
  workflow : String → Except String String

/-- The augmented prompt of agent.py line 218:
`f"Retrieved Company FAQ Information:\n{retrieved_info}\n\nUser Question: {user_query}"`. -/
def buildPrompt (retrieved_info user_query : String) : String :=
  "Retrieved Company FAQ Information:\n" ++ retrieved_info
    ++ "\n\nUser Question: " ++ user_query

/-- `run_faq_agent` (agent.py lines 193-232): setup failure returns the
fixed backend-failure string; the tool call at line 214 sits outside any
handler, so a tool exception escapes (`.error`); workflow failures are
caught and formatted. Returns the outcome with the updated globals and
counts. -/
def run_faq_agent (env : AgentEnv) (st : RagState) (c : CallCounts)
    (user_query : String) : Except PyExn String × RagState × CallCounts :=
  match setupRagSystem env.setup st c with
  | (false, st', c') =>
    (.ok "Backend RAG system failed to initialize. Please check server logs.", st', c')
  | (true, st', c') =>
    match FAQTool.run env.tool user_query with
    | .error e => (.error e, st', c')
    | .ok retrieved_info =>
      match env.workflow (buildPrompt retrieved_info user_query) with
      | .ok answer => (.ok answer, st', c')
      | .error e =>
        (.ok ("An error occurred while processing your request: " ++ e), st', c')

/-!
Interleaving model for concurrent first calls to `_setup_rag_system`.
A thread is a program counter over the function's atomic actions: pc 0 is
the readiness guard of line 48 (a read of the five globals), pcs 1-5 are
the five initialization steps (each a constructor call plus the assignment
to its global, taken as one atomic action — a coarser grain than Python,
which only makes races rarer than in the real code), pc 6 is done. There
is no lock in the source: nothing prevents a second thread from running
its guard between another thread's guard and assignments.
-/

/-- One atomic action of a thread executing `_setup_rag_system` on the
shared globals, in an environment where every constructor succeeds (step 4
reads the globals `_embedding_model` and `_chroma_collection`, as agent.py
line 80 does). Returns the new shared state and the thread's next pc. -/
def threadStep (env : SetupEnv) (g : RagState × CallCounts) (pc : Nat) :
    (RagState × CallCounts) × Nat :=
  let (st, c) := g
  match pc with
  | 0 => if st.isReady then (g, 6) else (g, 1)
  | 1 =>
    let c := { c with model := c.model + 1 }
    match env.loadModel with
    | .error _ => ((st, c), 6)
    | .ok m => (({ st with embedding_model := some m }, c), 2)
  | 2 =>
    let c := { c with chroma := c.chroma + 1 }
    match env.openChroma with
    | .error _ => ((st, c), 6)
    | .ok coll => (({ st with chroma_collection := some coll }, c), 3)
  | 3 =>
    let c := { c with llm := c.llm + 1 }
    match env.initLlm with
    | .error _ => ((st, c), 6)
    | .ok l => (({ st with llm := some l }, c), 4)
  | 4 =>
    let m := st.embedding_model.getD 0
    let coll := st.chroma_collection.getD 0
    (({ st with faq_tool_instance := some (m, coll) }, c), 5)
  | 5 => (({ st with agent_workflow := some () }, c), 6)
  | _ => (g, pc)

/-- Run a schedule over two threads that both entered `_setup_rag_system`:
each list entry picks the thread that performs its next atomic action
(`false` = thread A, `true` = thread B). -/
def runSched (env : SetupEnv) :
    List Bool → (RagState × CallCounts) × Nat × Nat →
    (RagState × CallCounts) × Nat × Nat
  | [], s => s
  | pick :: rest, (g, pcA, pcB) =>
    if pick then
      let (g', pcB') := threadStep env g pcB
      runSched env rest (g', pcA, pcB')
    else
      let (g', pcA') := threadStep env g pcA
      runSched env rest (g', pcA', pcB)

/-- Specification predicate (not code): the index response's first
`metadatas` entry exists and has at least as many elements as the first
`documents` entry — the precondition under which the formatting loop of
`FAQTool._run` cannot raise. -/
def metadatasCover (docs0 : List String)
    (metas : Option (List (List Metadata))) : Bool :=
  match metas with
  | some (ms :: _) => docs0.length ≤ ms.length
  | _ => false

/-! ### Helper lemmas -/

/-- If all five globals are populated, `_setup_rag_system` returns `True`
at once, leaving state and call counts untouched (agent.py lines 48-50). -/
theorem setup_ready_id (env : SetupEnv) (st : RagState) (c : CallCounts)
    (h : st.isReady = true) : setupRagSystem env st c = (true, st, c) := by
  simp [setupRagSystem, h]

/-- Successful formatting from index `i` on pairs each remaining document
with the metadata entry at the same index. -/
theorem formatGo_ok (ms : List Metadata) (mrest : List (List Metadata))
    (docs0 : List String) :
    ∀ i : Nat, i + docs0.length ≤ ms.length →
      formatGo (some (ms :: mrest)) docs0 i =
        .ok (List.zipWith formatBlock docs0 (ms.drop i)) := by
  induction docs0 with
  | nil => intro i _; simp [formatGo]
  | cons d rest ih =>
    intro i h
    have hi : i < ms.length := by simp at h; omega
    have hget : ms[i]? = some ms[i] := List.getElem?_eq_getElem hi
    rw [List.drop_eq_getElem_cons hi, List.zipWith_cons_cons]
    simp only [formatGo, getMeta, hget]
    rw [ih (i + 1) (by simp at h ⊢; omega)]

/-- If the first metadata list is too short for the remaining documents,
the loop raises `IndexError`. -/
theorem formatGo_short (ms : List Metadata) (mrest : List (List Metadata))
    (docs0 : List String) :
    ∀ i : Nat, docs0 ≠ [] → ms.length < i + docs0.length →
      formatGo (some (ms :: mrest)) docs0 i = .error .indexError := by
  induction docs0 with
  | nil => intro i h _; exact absurd rfl h
  | cons d rest ih =>
    intro i _ hlen
    by_cases hi : i < ms.length
    · have hget : ms[i]? = some ms[i] := List.getElem?_eq_getElem hi
      have hrest : rest ≠ [] := by
        cases rest with
        | nil => simp at hlen; omega
        | cons _ _ => simp
      simp only [formatGo, getMeta, hget]
      rw [ih (i + 1) hrest (by simp at hlen ⊢; omega)]
    · have hget : ms[i]? = none := List.getElem?_eq_none (by omega)
      simp [formatGo, getMeta, hget]

/-- With the `metadatas` key absent (or `None`), the first iteration
raises `TypeError`. -/
theorem formatGo_none (docs0 : List String) (i : Nat) (h : docs0 ≠ []) :
    formatGo none docs0 i = .error .typeError := by
  cases docs0 with
  | nil => exact absurd rfl h
  | cons d rest => simp [formatGo, getMeta]

/-- With an empty outer `metadatas` list, `results['metadatas'][0]` raises
`IndexError` on the first iteration. -/
theorem formatGo_outer_nil (docs0 : List String) (i : Nat) (h : docs0 ≠ []) :
    formatGo (some []) docs0 i = .error .indexError := by
  cases docs0 with
  | nil => exact absurd rfl h
  | cons d rest => simp [formatGo, getMeta]

/-- A successful run of the loop yields exactly one block per document. -/
theorem formatGo_length (metas : Option (List (List Metadata)))
    (docs0 : List String) :
    ∀ (i : Nat) (blocks : List String),
      formatGo metas docs0 i = .ok blocks → blocks.length = docs0.length := by
  induction docs0 with
  | nil => intro i blocks h; simp [formatGo] at h; simp [← h]
  | cons d rest ih =>
    intro i blocks h
    simp only [formatGo] at h
    cases hm : getMeta metas i with
    | error e => rw [hm] at h; exact absurd h (by simp)
    | ok metadata =>
      rw [hm] at h
      cases hr : formatGo metas rest (i + 1) with
      | error e => rw [hr] at h; exact absurd h (by simp)
      | ok bs =>
        rw [hr] at h
        have := ih (i + 1) bs hr
        simp at h
        simp [← h, this]

/-! ### Claim theorems -/

/-- C3: `_setup_rag_system` is idempotent after success — once all five
resource handles are populated, it returns `True` immediately and any
number of further calls leaves the globals and every constructor call
count unchanged. -/
theorem C3_idempotent_after_success (env : SetupEnv) (st : RagState)
    (c : CallCounts) (h : st.isReady = true) :
    setupRagSystem env st c = (true, st, c) ∧
      ∀ n : Nat, setupIter env n (st, c) = (st, c) := by
  refine ⟨setup_ready_id env st c h, ?_⟩
  intro n
  induction n with
  | zero => rfl
  | succ k ih => simp only [setupIter, setup_ready_id env st c h]; exact ih

theorem C3_idempotent_after_success_witness :
    RagState.isReady ⟨some 1, some 2, some 3, some (1, 2), some ()⟩ = true ∧
      setupIter ⟨.ok 1, .ok 2, .ok 3⟩ 5
          (⟨some 1, some 2, some 3, some (1, 2), some ()⟩, CallCounts.zero) =
        (⟨some 1, some 2, some 3, some (1, 2), some ()⟩, CallCounts.zero) :=
  ⟨by decide,
    (C3_idempotent_after_success ⟨.ok 1, .ok 2, .ok 3⟩
      ⟨some 1, some 2, some 3, some (1, 2), some ()⟩ CallCounts.zero
      (by decide)).2 5⟩

/-- C4: if the index returns zero documents (no result object, no
`documents` key, or an empty neighbor list), `FAQTool._run` returns
exactly the literal sentinel `"No relevant information found in the
FAQs."`. -/
theorem C4_empty_result_sentinel (env : ToolEnv) (q : String) (emb : Nat)
    (results : Option QueryResult)
    (henc : env.encode q = .ok emb)
    (hq : env.query emb 3 = .ok results)
    (hempty : results = none ∨ ∃ r, results = some r ∧
      (r.documents = none ∨ r.documents = some [] ∨
        ∃ drest, r.documents = some ([] :: drest))) :
    FAQTool.run env q = .ok "No relevant information found in the FAQs." := by
  simp only [FAQTool.run, henc, hq]
  rcases hempty with h | ⟨r, hr, hdoc⟩
  · simp [h, processResults]
  · obtain ⟨docs, metas⟩ := r
    rcases hdoc with h | h | ⟨drest, h⟩ <;> simp_all [processResults]

theorem C4_empty_result_sentinel_witness :
    FAQTool.run ⟨fun _ => .ok 0, fun _ _ => .ok (some ⟨some [], none⟩)⟩
        "any question" =
      .ok "No relevant information found in the FAQs." :=
  C4_empty_result_sentinel
    ⟨fun _ => .ok 0, fun _ _ => .ok (some ⟨some [], none⟩)⟩
    "any question" 0 (some ⟨some [], none⟩) rfl rfl
    (Or.inr ⟨⟨some [], none⟩, rfl, Or.inr (Or.inl rfl)⟩)

/-- C5: each returned neighbor is formatted as the two-line block
`"Question: {q}\nAnswer: {a}"`, with a missing `question` key replaced by
`"N/A"` and a missing `answer` key falling back to the raw document text;
in particular empty metadata with document `d` yields
`"Question: N/A\nAnswer: " ++ d`. -/
theorem C5_metadata_fallback (env : ToolEnv) (q : String) (emb : Nat)
    (docs0 : List String) (drest : List (List String))
    (ms : List Metadata) (mrest : List (List Metadata))
    (henc : env.encode q = .ok emb)
    (hq : env.query emb 3 =
      .ok (some ⟨some (docs0 :: drest), some (ms :: mrest)⟩))
    (hne : docs0 ≠ [])
    (hlen : docs0.length ≤ ms.length) :
    FAQTool.run env q =
        .ok (String.intercalate "\n\n" (List.zipWith formatBlock docs0 ms)) ∧
      ∀ (d : String) (m : Metadata), m.lookup "question" = none →
        m.lookup "answer" = none →
        formatBlock d m = "Question: N/A\nAnswer: " ++ d := by
  constructor
  · cases docs0 with
    | nil => exact absurd rfl hne
    | cons d rest =>
      cases ms with
      | nil => simp at hlen
      | cons m0 mstail =>
        have hfa := formatGo_ok (m0 :: mstail) mrest (d :: rest) 0
          (by simpa using hlen)
        simp only [FAQTool.run, henc, hq, processResults, formatAll, hfa,
          List.drop_zero, List.zipWith_cons_cons, List.isEmpty_cons]
        simp
  · intro d m hqk hak
    show ("Question: " ++ metaGet m "question" "N/A" ++ "\nAnswer: "
        ++ metaGet m "answer" d) = "Question: N/A\nAnswer: " ++ d
    rw [metaGet, metaGet, hqk, hak]
    rfl

theorem C5_metadata_fallback_witness :
    FAQTool.run
        ⟨fun _ => .ok 0, fun _ _ => .ok (some ⟨some [["D1"]], some [[[]]]⟩)⟩
        "q" =
      .ok "Question: N/A\nAnswer: D1" := by
  have h := C5_metadata_fallback
    ⟨fun _ => .ok 0, fun _ _ => .ok (some ⟨some [["D1"]], some [[[]]]⟩)⟩
    "q" 0 ["D1"] [] [[]] [] rfl rfl (by decide) (by decide)
  rw [h.1]
  rfl

/-- C6: with the agent workflow observed as an echo of its input, the
prompt the orchestrator hands to it is exactly
`"Retrieved Company FAQ Information:\n{context}\n\nUser Question:
{query}"`, nothing added or removed. -/
theorem C6_prompt_template_exact (env : AgentEnv) (st : RagState)
    (c : CallCounts) (q s : String)
    (hready : st.isReady = true)
    (htool : FAQTool.run env.tool q = .ok s)
    (hecho : ∀ p, env.workflow p = .ok p) :
    (run_faq_agent env st c q).1 =
      .ok ("Retrieved Company FAQ Information:\n" ++ s
        ++ "\n\nUser Question: " ++ q) := by
  simp only [run_faq_agent, setup_ready_id env.setup st c hready, htool,
    hecho, buildPrompt]

theorem C6_prompt_template_exact_witness :
    (run_faq_agent
        ⟨⟨.ok 1, .ok 2, .ok 3⟩,
          ⟨fun _ => .ok 0, fun _ _ => .ok (some ⟨some [["C"]], some [[[]]]⟩)⟩,
          fun p => .ok p⟩
        ⟨some 1, some 2, some 3, some (1, 2), some ()⟩ CallCounts.zero
        "Q").1 =
      .ok ("Retrieved Company FAQ Information:\n" ++ "Question: N/A\nAnswer: C"
        ++ "\n\nUser Question: " ++ "Q") :=
  C6_prompt_template_exact
    ⟨⟨.ok 1, .ok 2, .ok 3⟩,
      ⟨fun _ => .ok 0, fun _ _ => .ok (some ⟨some [["C"]], some [[[]]]⟩)⟩,
      fun p => .ok p⟩
    ⟨some 1, some 2, some 3, some (1, 2), some ()⟩ CallCounts.zero
    "Q" "Question: N/A\nAnswer: C" (by decide) (by rfl) (fun _ => rfl)

/-- C7: if the agent workflow invocation raises with cause text `x`, the
orchestrator catches it and returns exactly
`"An error occurred while processing your request: " ++ x`, itself
returning normally (an `.ok`, never a further raise). -/
theorem C7_fail_open_orchestration (env : AgentEnv) (st : RagState)
    (c : CallCounts) (q s x : String)
    (hready : st.isReady = true)
    (htool : FAQTool.run env.tool q = .ok s)
    (hraise : env.workflow (buildPrompt s q) = .error x) :
    (run_faq_agent env st c q).1 =
      .ok ("An error occurred while processing your request: " ++ x) := by
  simp only [run_faq_agent, setup_ready_id env.setup st c hready, htool,
    hraise]

theorem C7_fail_open_orchestration_witness :
    (run_faq_agent
        ⟨⟨.ok 1, .ok 2, .ok 3⟩,
          ⟨fun _ => .ok 0, fun _ _ => .ok (some ⟨some [["C"]], some [[[]]]⟩)⟩,
          fun _ => .error "x"⟩
        ⟨some 1, some 2, some 3, some (1, 2), some ()⟩ CallCounts.zero
        "Q").1 =
      .ok ("An error occurred while processing your request: " ++ "x") :=
  C7_fail_open_orchestration
    ⟨⟨.ok 1, .ok 2, .ok 3⟩,
      ⟨fun _ => .ok 0, fun _ _ => .ok (some ⟨some [["C"]], some [[[]]]⟩)⟩,
      fun _ => .error "x"⟩
    ⟨some 1, some 2, some 3, some (1, 2), some ()⟩ CallCounts.zero
    "Q" "Question: N/A\nAnswer: C" "x" (by decide) (by rfl) rfl

/-- C8: `FAQTool._run` queries the index only at `n_results = 3` (two
environments agreeing at 3 are indistinguishable to it), and a successful
run produces exactly one formatted block per returned neighbor — with C
returned neighbors the context has exactly C blocks, never a fabricated
one. -/
theorem C8_topk_bound :
    (∀ (env env' : ToolEnv) (q : String), env.encode = env'.encode →
      (∀ e : Nat, env.query e 3 = env'.query e 3) →
      FAQTool.run env q = FAQTool.run env' q) ∧
    ∀ (docs0 : List String) (metas : Option (List (List Metadata)))
      (blocks : List String), formatAll docs0 metas = .ok blocks →
      blocks.length = docs0.length := by
  constructor
  · intro env env' q henc hq
    simp only [FAQTool.run, henc, hq]
  · intro docs0 metas blocks h
    exact formatGo_length metas docs0 0 blocks h

theorem C8_topk_bound_witness :
    FAQTool.run
        ⟨fun _ => .ok 0, fun _ _ => .ok (some ⟨some [["D1"]], some [[[]]]⟩)⟩
        "q" =
      FAQTool.run
        ⟨fun _ => .ok 0,
          fun _ n => if n = 3 then .ok (some ⟨some [["D1"]], some [[[]]]⟩)
            else .error "asked for k other than 3"⟩
        "q" ∧
    (["Question: N/A\nAnswer: D1"] : List String).length =
      (["D1"] : List String).length :=
  ⟨C8_topk_bound.1
      ⟨fun _ => .ok 0, fun _ _ => .ok (some ⟨some [["D1"]], some [[[]]]⟩)⟩
      ⟨fun _ => .ok 0,
        fun _ n => if n = 3 then .ok (some ⟨some [["D1"]], some [[[]]]⟩)
          else .error "asked for k other than 3"⟩
      "q" rfl (fun _ => rfl),
    C8_topk_bound.2 ["D1"] (some [[[]]]) ["Question: N/A\nAnswer: D1"]
      (by rfl)⟩

/-- C1 counterexample: with the system fully initialized and the index
answering with one document but an empty `metadatas` outer list,
`run_faq_agent` does not return a string — the formatting loop's
`IndexError` escapes past the boundary. -/
theorem C1_counterexample :
    (run_faq_agent
        ⟨⟨.ok 1, .ok 2, .ok 3⟩,
          ⟨fun _ => .ok 0, fun _ _ => .ok (some ⟨some [["D1"]], some []⟩)⟩,
          fun _ => .ok "answer"⟩
        ⟨some 1, some 2, some 3, some (1, 2), some ()⟩ CallCounts.zero
        "What is the refund policy?").1 = .error .indexError := by
  rfl

/-- C1 (amended): `run_faq_agent` returns a string for every query
provided the FAQ tool call itself returns (its embedding and index-query
failures are caught inside it); initialization failure and workflow
failure also degrade to strings. Only an exception escaping
`FAQTool._run`'s formatting loop propagates past the boundary. -/
theorem C1_amended_no_raise (env : AgentEnv) (st : RagState) (c : CallCounts)
    (q s : String) (htool : FAQTool.run env.tool q = .ok s) :
    ((run_faq_agent env st c q).1).isOk = true := by
  rcases hsetup : setupRagSystem env.setup st c with ⟨ok, st', c'⟩
  cases ok
  · simp [run_faq_agent, hsetup, Except.isOk, Except.toBool]
  · cases hw : env.workflow (buildPrompt s q) with
    | ok a => simp [run_faq_agent, hsetup, htool, hw, Except.isOk, Except.toBool]
    | error e => simp [run_faq_agent, hsetup, htool, hw, Except.isOk, Except.toBool]

theorem C1_amended_no_raise_witness :
    ((run_faq_agent
        ⟨⟨.ok 1, .ok 2, .ok 3⟩,
          ⟨fun _ => .ok 0, fun _ _ => .ok (some ⟨some [["D1"]], some [[[]]]⟩)⟩,
          fun _ => .error "llm unavailable"⟩
        ⟨some 1, some 2, some 3, some (1, 2), some ()⟩ CallCounts.zero
        "q").1).isOk = true :=
  C1_amended_no_raise
    ⟨⟨.ok 1, .ok 2, .ok 3⟩,
      ⟨fun _ => .ok 0, fun _ _ => .ok (some ⟨some [["D1"]], some [[[]]]⟩)⟩,
      fun _ => .error "llm unavailable"⟩
    ⟨some 1, some 2, some 3, some (1, 2), some ()⟩ CallCounts.zero
    "q" "Question: N/A\nAnswer: D1" (by rfl)

/-- C2 counterexample: after a failed initialization (ChromaDB step
raises) the failure is not permanent — the very next call to
`_setup_rag_system` re-attempts the acquisition steps: the embedding-model
and ChromaDB constructors are each invoked a second time, and under a now
healthy environment the second call even succeeds. -/
theorem C2_counterexample :
    (setupRagSystem ⟨.ok 1, .error "db down", .ok 2⟩ RagState.initial
        CallCounts.zero).1 = false ∧
    (setupRagSystem ⟨.ok 1, .error "db down", .ok 2⟩ RagState.initial
        CallCounts.zero).2.2.model = 1 ∧
    (setupIter ⟨.ok 1, .error "db down", .ok 2⟩ 2
        (RagState.initial, CallCounts.zero)).2.model = 2 ∧
    (setupIter ⟨.ok 1, .error "db down", .ok 2⟩ 2
        (RagState.initial, CallCounts.zero)).2.chroma = 2 ∧
    (setupRagSystem ⟨.ok 1, .ok 5, .ok 2⟩
        (setupRagSystem ⟨.ok 1, .error "db down", .ok 2⟩ RagState.initial
          CallCounts.zero).2.1
        (setupRagSystem ⟨.ok 1, .error "db down", .ok 2⟩ RagState.initial
          CallCounts.zero).2.2).1 = true := by
  decide

/-- C2 (amended): a failed initialization step aborts the sequence and
`run_faq_agent` never answers a query while setup reports failure — it
returns the fixed backend-failure string; but the failed state is not
permanent: the next call re-attempts the still-missing acquisition
steps. -/
theorem C2_never_answers_unready (env : AgentEnv) (st : RagState)
    (c : CallCounts) (q : String) (st' : RagState) (c' : CallCounts)
    (hfail : setupRagSystem env.setup st c = (false, st', c')) :
    (run_faq_agent env st c q).1 =
      .ok "Backend RAG system failed to initialize. Please check server logs." := by
  simp [run_faq_agent, hfail]

theorem C2_never_answers_unready_witness :
    (run_faq_agent
        ⟨⟨.error "no model", .ok 2, .ok 3⟩,
          ⟨fun _ => .ok 0, fun _ _ => .ok none⟩, fun p => .ok p⟩
        RagState.initial CallCounts.zero "q").1 =
      .ok "Backend RAG system failed to initialize. Please check server logs." :=
  C2_never_answers_unready
    ⟨⟨.error "no model", .ok 2, .ok 3⟩,
      ⟨fun _ => .ok 0, fun _ _ => .ok none⟩, fun p => .ok p⟩
    RagState.initial CallCounts.zero "q" RagState.initial ⟨1, 0, 0⟩ (by rfl)

/-- C9: the unsynchronized check-then-initialize of `_setup_rag_system`
admits double initialization. Under the interleaving where both threads
run the line-48 readiness guard before either assigns a global, every
constructor executes twice and both threads run to completion; by
contrast, the fully sequential schedule initializes once. -/
theorem C9_double_init_race :
    (runSched ⟨.ok 1, .ok 2, .ok 3⟩
        [false, true, false, false, false, false, false,
          true, true, true, true, true]
        ((RagState.initial, CallCounts.zero), 0, 0)).1.2 = ⟨2, 2, 2⟩ ∧
    (runSched ⟨.ok 1, .ok 2, .ok 3⟩
        [false, true, false, false, false, false, false,
          true, true, true, true, true]
        ((RagState.initial, CallCounts.zero), 0, 0)).2 = (6, 6) ∧
    (runSched ⟨.ok 1, .ok 2, .ok 3⟩
        [false, false, false, false, false, false, true]
        ((RagState.initial, CallCounts.zero), 0, 0)).1.2 = ⟨1, 1, 1⟩ := by
  decide

/-- C10: for an index response with a present, non-empty first `documents`
entry, `FAQTool._run`'s result formatting returns a string (instead of
raising) exactly when the first `metadatas` entry exists and covers the
documents; a shorter or absent `metadatas` list makes it raise. -/
theorem C10_metadata_cover_precondition (docs0 : List String)
    (drest : List (List String)) (metas : Option (List (List Metadata)))
    (hne : docs0 ≠ []) :
    (processResults (some ⟨some (docs0 :: drest), metas⟩)).isOk =
      metadatasCover docs0 metas := by
  cases docs0 with
  | nil => exact absurd rfl hne
  | cons d rest =>
    match metas with
    | none =>
      simp [processResults, formatAll, formatGo_none (d :: rest) 0 (by simp),
        metadatasCover, Except.isOk, Except.toBool]
    | some [] =>
      simp [processResults, formatAll,
        formatGo_outer_nil (d :: rest) 0 (by simp),
        metadatasCover, Except.isOk, Except.toBool]
    | some (ms :: mrest) =>
      by_cases hlen : (d :: rest).length ≤ ms.length
      · cases ms with
        | nil => simp at hlen
        | cons m0 mstail =>
          have hfa := formatGo_ok (m0 :: mstail) mrest (d :: rest) 0
            (by simpa using hlen)
          simp [processResults, formatAll, hfa, metadatasCover, hlen,
            Except.isOk, Except.toBool]
          simp at hlen
          omega
      · have hfa := formatGo_short ms mrest (d :: rest) 0 (by simp)
          (by simp at hlen ⊢; omega)
        simp [processResults, formatAll, hfa, metadatasCover, hlen,
          Except.isOk, Except.toBool]
        simp at hlen
        omega

theorem C10_metadata_cover_precondition_witness :
    (processResults (some ⟨some [["D1"]], some [[[]]]⟩)).isOk =
        metadatasCover ["D1"] (some [[[]]]) ∧
      (processResults (some ⟨some [["D1"]], some []⟩)).isOk =
        metadatasCover ["D1"] (some []) :=
  ⟨C10_metadata_cover_precondition ["D1"] [] (some [[[]]]) (by decide),
    C10_metadata_cover_precondition ["D1"] [] (some []) (by decide)⟩
